import Mathlib

/-!
Shallow embedding of the Bresser weather-sensor payload decoders
(`bresser_decoder.py`): checksum/digest primitives and the five
payload decoders (5-in-1, 6-in-1, 7-in-1, Lightning, Leakage),
followed by theorems checking the specification's claims about them.

Conventions of the embedding:
* a payload buffer is a `List Nat` of byte values; indexing `msg[k]`
  becomes `msg.getD k 0` (all decoders only index within the fixed
  26-byte frame);
* Python's `~b & mask` on a byte is `(b ^^^ 0xff) &&& mask`, which
  agrees with the two's-complement computation for every `b < 256`
  (and on the masked bits for every natural number);
* decoded physical quantities scaled by 0.1 in the source are embedded
  as exact rationals (`raw / 10 : ℚ`);
* a decoder returns `Nat × Option Reading`, mirroring the Python
  `(status_code, data_dict or None)` tuple; the sparse result dict
  becomes a structure of `Option` fields, a field being `none` exactly
  when the corresponding key is absent from the dict.
-/

set_option maxRecDepth 8000

/-- Decode status constant `DECODE_INVALID` from the source. -/
def DECODE_INVALID : Nat := 0
/-- Decode status constant `DECODE_OK` from the source. -/
def DECODE_OK : Nat := 1
/-- Decode status constant `DECODE_PAR_ERR` from the source. -/
def DECODE_PAR_ERR : Nat := 2
/-- Decode status constant `DECODE_CHK_ERR` from the source. -/
def DECODE_CHK_ERR : Nat := 3
/-- Decode status constant `DECODE_DIG_ERR` from the source. -/
def DECODE_DIG_ERR : Nat := 4

/-- `BresserDecoder.MOISTURE_MAP`. -/
def MOISTURE_MAP : List Nat := [0, 7, 13, 20, 27, 33, 40, 47, 53, 60, 67, 73, 80, 87, 93, 99]

/-- One bit of the LFSR-16 digest loop body: state is `(sum, key)`;
if bit `i` of `data` is set the key is xored into the sum, then the
key is rolled right, folding in the generator when the dropped bit
was set. -/
def lfsrStep (gen data i : Nat) (st : Nat × Nat) : Nat × Nat :=
  let s := if (data >>> i) &&& 1 = 1 then st.1 ^^^ st.2 else st.1
  let key := if st.2 &&& 1 = 1 then (st.2 >>> 1) ^^^ gen else st.2 >>> 1
  (s, key)

/-- `BresserDecoder.lfsr_digest16`: processes `num_bytes` bytes of
`message`, each most-significant bit first. -/
def lfsr_digest16 (message : List Nat) (num_bytes gen key : Nat) : Nat :=
  ((List.range num_bytes).foldl
    (fun st k =>
      let data := message.getD k 0
      (List.range 8).foldl (fun st2 j => lfsrStep gen data (7 - j) st2) st)
    (0, key)).1

/-- `BresserDecoder.add_bytes`: sum of the first `num_bytes` bytes. -/
def add_bytes (message : List Nat) (num_bytes : Nat) : Nat :=
  (List.range num_bytes).foldl (fun acc i => acc + message.getD i 0) 0

/-- `BresserDecoder.crc16`: bit-at-a-time CRC-16, MSB first, kept to
16 bits after every shift. -/
def crc16 (message : List Nat) (num_bytes polynomial init : Nat) : Nat :=
  (List.range num_bytes).foldl
    (fun remainder byte_idx =>
      let r := remainder ^^^ (message.getD byte_idx 0 <<< 8)
      (List.range 8).foldl
        (fun rem _ =>
          if rem &&& 0x8000 ≠ 0 then ((rem <<< 1) ^^^ polynomial) &&& 0xFFFF
          else (rem <<< 1) &&& 0xFFFF)
        r)
    init

/-- The bit-population count computed by the 5-in-1 checksum loop
(`while current_byte: bits_set += current_byte & 1; current_byte >>= 1`). -/
def popCount (n : Nat) : Nat :=
  if n = 0 then 0 else (n &&& 1) + popCount (n >>> 1)
termination_by n
decreasing_by
  rename_i h
  omega

/-- Data de-whitening: the working copy `msgw` built by the 7-in-1 and
Lightning decoders, every byte of the buffer XORed with `0xaa`. -/
def dewhiten (msg : List Nat) (msgSize : Nat) : List Nat :=
  (msg.take msgSize).map (fun b => b ^^^ 0xaa)

/-- The sparse result dictionary of a decoder: a field is `none` exactly
when the corresponding key is absent from the Python dict. -/
structure Reading where
  sensor_id : Option Nat := none
  sensor_type : Option Nat := none
  channel : Option Nat := none
  battery_ok : Option Bool := none
  startup : Option Bool := none
  temp_c : Option ℚ := none
  humidity : Option Nat := none
  moisture : Option Nat := none
  uv_index : Option ℚ := none
  wind_gust_meter_sec : Option ℚ := none
  wind_avg_meter_sec : Option ℚ := none
  wind_direction_deg : Option ℚ := none
  rain_mm : Option ℚ := none
  light_lux : Option ℚ := none
  globe_temp_c : Option ℚ := none
  pm_1_0 : Option Nat := none
  pm_2_5 : Option Nat := none
  pm_10 : Option Nat := none
  co2_ppm : Option Nat := none
  hcho_ppb : Option Nat := none
  voc_level : Option Nat := none
  strike_count : Option Nat := none
  distance_km : Option Nat := none
  alarm : Option Bool := none
  deriving DecidableEq, Repr

/-- `BresserDecoder.decodeBresser6In1Payload`. -/
def decodeBresser6In1Payload (msg : List Nat) (_msgSize : Nat) : Nat × Option Reading :=
  -- LFSR-16 digest, generator 0x8810 init 0x5412
  if (msg.getD 0 0 <<< 8) ||| msg.getD 1 0 ≠ lfsr_digest16 (msg.drop 2) 15 0x8810 0x5412 then
    (DECODE_DIG_ERR, none) else
  -- Checksum, add with carry, msg[2] to msg[17]
  if (add_bytes (msg.drop 2) 16) &&& 0xff ≠ 0xff then (DECODE_CHK_ERR, none) else
  let sid := (msg.getD 2 0 <<< 24) ||| (msg.getD 3 0 <<< 16) ||| (msg.getD 4 0 <<< 8) ||| msg.getD 5 0
  let stype := msg.getD 6 0 >>> 4
  let ch := msg.getD 6 0 &&& 7
  let startup := (msg.getD 6 0 &&& 0x8) == 0
  let flags := msg.getD 16 0 &&& 0x0f
  -- temperature, humidity(, uv) - shared with rain counter
  let temp_ok := flags == 0
  let humidity_ok := flags == 0
  let sign := (msg.getD 13 0 >>> 3) &&& 1
  let temp_raw : Nat := (msg.getD 12 0 >>> 4) * 100 + (msg.getD 12 0 &&& 0x0f) * 10 + (msg.getD 13 0 >>> 4)
  let temp0 : ℚ := if sign = 1 then ((temp_raw : ℚ) - 1000) / 10 else (temp_raw : ℚ) / 10
  -- 3-in-1 Professional Wind Gauge correction: temperature below -50°C
  -- indicates incorrect sign bit interpretation
  let f_3in1 := temp_ok && decide (temp0 < -50)
  let temp : ℚ := if f_3in1 then (temp_raw : ℚ) / 10 else temp0
  let batt_ok := temp_ok && ((msg.getD 13 0 >>> 1) &&& 1 == 1)
  let humidity := if temp_ok then (msg.getD 14 0 >>> 4) * 10 + (msg.getD 14 0 &&& 0x0f) else 0
  let uv_ok := temp_ok && decide ((msg.getD 15 0 ^^^ 0xff) &&& 0xff ≤ 0x99)
        && decide ((msg.getD 16 0 ^^^ 0xff) &&& 0xf0 ≤ 0x90) && !f_3in1
  let uv_raw := (((msg.getD 15 0 ^^^ 0xff) &&& 0xf0) >>> 4) * 100
        + ((msg.getD 15 0 ^^^ 0xff) &&& 0x0f) * 10 + (((msg.getD 16 0 ^^^ 0xff) &&& 0xf0) >>> 4)
  let uv : ℚ := if uv_ok then (uv_raw : ℚ) / 10 else 0
  -- invert 3 bytes wind speeds
  let msg7 := msg.getD 7 0 ^^^ 0xff
  let msg8 := msg.getD 8 0 ^^^ 0xff
  let msg9 := msg.getD 9 0 ^^^ 0xff
  let wind_ok := decide (msg7 ≤ 0x99) && decide (msg8 ≤ 0x99) && decide (msg9 ≤ 0x99)
  let gust_raw := (msg7 >>> 4) * 100 + (msg7 &&& 0x0f) * 10 + (msg8 >>> 4)
  let wavg_raw := (msg9 >>> 4) * 100 + (msg9 &&& 0x0f) * 10 + (msg8 &&& 0x0f)
  let wind_dir_raw := ((msg.getD 10 0 &&& 0xf0) >>> 4) * 100 + (msg.getD 10 0 &&& 0x0f) * 10
        + ((msg.getD 11 0 &&& 0xf0) >>> 4)
  let wind_gust : ℚ := if wind_ok then (gust_raw : ℚ) / 10 else 0
  let wind_avg : ℚ := if wind_ok then (wavg_raw : ℚ) / 10 else 0
  let wind_dir : ℚ := if wind_ok then (wind_dir_raw : ℚ) else 0
  -- rain counter, inverted 3 bytes BCD - shared with temp/hum
  let msg12 := msg.getD 12 0 ^^^ 0xff
  let msg13 := msg.getD 13 0 ^^^ 0xff
  let msg14 := msg.getD 14 0 ^^^ 0xff
  let rain_ok := (flags == 1) && (stype == 1)
  let rain_raw := (msg12 >>> 4) * 100000 + (msg12 &&& 0x0f) * 10000
        + (msg13 >>> 4) * 1000 + (msg13 &&& 0x0f) * 100
        + (msg14 >>> 4) * 10 + (msg14 &&& 0x0f)
  let rain_mm : ℚ := (rain_raw : ℚ) / 10
  -- Pool / Spa thermometer
  let humidity_ok := humidity_ok && !(stype == 3)
  -- the moisture sensor might present valid readings but does not have the hardware
  let wind_ok := wind_ok && !(stype == 4)
  let uv_ok := uv_ok && !(stype == 4)
  let moisture_ok := (stype == 4) && temp_ok && decide (1 ≤ humidity) && decide (humidity ≤ 16)
  let humidity_ok := humidity_ok && !moisture_ok
  let moisture := if moisture_ok then MOISTURE_MAP.getD (humidity - 1) 0 else 0
  (DECODE_OK, some {
    sensor_id := some sid
    sensor_type := some stype
    channel := some ch
    battery_ok := some batt_ok
    startup := some startup
    temp_c := if temp_ok then some temp else none
    humidity := if humidity_ok then some humidity else none
    moisture := if moisture_ok then some moisture else none
    uv_index := if uv_ok then some uv else none
    wind_gust_meter_sec := if wind_ok then some wind_gust else none
    wind_avg_meter_sec := if wind_ok then some wind_avg else none
    wind_direction_deg := if wind_ok then some wind_dir else none
    rain_mm := if rain_ok then some rain_mm else none })

/-- The 5-in-1 parity scan: first column `col < msgSize / 2` with
`msg[col] ^ msg[col + 13] != 0xff`, scanning columns in increasing
order (mirrors the `for col in range(msgSize // 2)` loop). -/
def parityFailColumn (msg : List Nat) (msgSize : Nat) : Option Nat :=
  (List.range (msgSize / 2)).find? (fun col => msg.getD col 0 ^^^ msg.getD (col + 13) 0 != 0xff)

/-- `BresserDecoder.decodeBresser5In1Payload`. -/
def decodeBresser5In1Payload (msg : List Nat) (msgSize : Nat) : Nat × Option Reading :=
  -- First 13 bytes need to match inverse of last 13 bytes
  match parityFailColumn msg msgSize with
  | some _ => (DECODE_PAR_ERR, none)
  | none =>
    -- Verify checksum (number bits set in bytes 14-25)
    if (List.range' 14 (msgSize - 14)).foldl (fun acc p => acc + popCount (msg.getD p 0)) 0
        ≠ msg.getD 13 0 then (DECODE_CHK_ERR, none) else
    let sid := msg.getD 14 0
    let stype := msg.getD 15 0 &&& 0x7F
    let startup := (msg.getD 15 0 &&& 0x80) == 0
    let batt_ok := !((msg.getD 25 0 &&& 0x80) != 0)
    -- Temperature in BCD format
    let temp_raw0 : Nat := (msg.getD 20 0 &&& 0x0f) + ((msg.getD 20 0 &&& 0xf0) >>> 4) * 10
          + (msg.getD 21 0 &&& 0x0f) * 100
    let temp_raw : Int := if msg.getD 25 0 &&& 0x0f ≠ 0 then -(temp_raw0 : Int) else (temp_raw0 : Int)
    let temp_c : ℚ := (temp_raw : ℚ) / 10
    -- Humidity in BCD format
    let humidity := (msg.getD 22 0 &&& 0x0f) + ((msg.getD 22 0 &&& 0xf0) >>> 4) * 10
    let humidity_ok := decide ((msg.getD 22 0 &&& 0x0f) ≤ 9)
    let temp_ok := decide ((msg.getD 20 0 &&& 0x0f) ≤ 9)
    -- Wind direction and speed
    let wind_direction_deg : ℚ := ((((msg.getD 17 0 &&& 0xf0) >>> 4) * 225 : Nat) : ℚ) / 10
    let gust_raw := ((msg.getD 17 0 &&& 0x0f) <<< 8) + msg.getD 16 0
    let wind_gust : ℚ := (gust_raw : ℚ) / 10
    let wind_raw := (msg.getD 18 0 &&& 0x0f) + ((msg.getD 18 0 &&& 0xf0) >>> 4) * 10
          + (msg.getD 19 0 &&& 0x0f) * 100
    let wind_avg : ℚ := (wind_raw : ℚ) / 10
    -- Rain in BCD format
    let rain_raw := (msg.getD 23 0 &&& 0x0f) + ((msg.getD 23 0 &&& 0xf0) >>> 4) * 10
          + (msg.getD 24 0 &&& 0x0f) * 100 + ((msg.getD 24 0 &&& 0xf0) >>> 4) * 1000
    let rain_mm0 : ℚ := (rain_raw : ℚ) / 10
    -- Bresser Professional Rain Gauge: sensor type 0x39, 0x3A, or 0x3B
    let gauge := decide (0x39 ≤ stype) && decide (stype ≤ 0x3b)
    let rain_mm := if gauge then rain_mm0 * (5 / 2 : ℚ) else rain_mm0
    let humidity_ok := humidity_ok && !gauge
    let wind_ok := !gauge
    (DECODE_OK, some {
      sensor_id := some sid
      sensor_type := some stype
      battery_ok := some batt_ok
      startup := some startup
      rain_mm := some rain_mm
      temp_c := if temp_ok then some temp_c else none
      humidity := if humidity_ok then some humidity else none
      wind_gust_meter_sec := if wind_ok then some wind_gust else none
      wind_avg_meter_sec := if wind_ok then some wind_avg else none
      wind_direction_deg := if wind_ok then some wind_direction_deg else none })

/-- `BresserDecoder.decodeBresser7In1Payload`. -/
def decodeBresser7In1Payload (msg : List Nat) (msgSize : Nat) : Nat × Option Reading :=
  -- sensor type, startup flag, channel come from RAW data (before de-whitening);
  -- the msg[21] == 0x00 sanity check only logs a warning and has no effect
  let stype := msg.getD 6 0 >>> 4
  let startup := (msg.getD 6 0 &&& 0x08) == 0x00
  let ch := msg.getD 6 0 &&& 0x07
  -- Data de-whitening
  -- LFSR-16 digest, generator 0x8810 key 0xba95 final xor 0x6df1
  if (((dewhiten msg msgSize).getD 0 0 <<< 8) ||| (dewhiten msg msgSize).getD 1 0) ^^^
      lfsr_digest16 ((dewhiten msg msgSize).drop 2) 23 0x8810 0xba95 ≠ 0x6df1 then
    (DECODE_DIG_ERR, none) else
  let msgw := dewhiten msg msgSize
  let sid := (msgw.getD 2 0 <<< 8) ||| msgw.getD 3 0
  let flags := msgw.getD 15 0 &&& 0x0f
  let batt_ok := !((flags &&& 0x06) == 0x06)
  let base : Reading := {
    sensor_id := some sid
    sensor_type := some stype
    channel := some ch
    battery_ok := some batt_ok
    startup := some startup }
  if msg.getD 6 0 >>> 4 == 1 || msg.getD 6 0 >>> 4 == 12 || msg.getD 6 0 >>> 4 == 13 then
    -- Weather sensor data
    let wind_light_ok := !(stype == 12)
    let wdir := (msgw.getD 4 0 >>> 4) * 100 + (msgw.getD 4 0 &&& 0x0f) * 10 + (msgw.getD 5 0 >>> 4)
    let wgst_raw := (msgw.getD 7 0 >>> 4) * 100 + (msgw.getD 7 0 &&& 0x0f) * 10 + (msgw.getD 8 0 >>> 4)
    let wavg_raw := (msgw.getD 8 0 &&& 0x0f) * 100 + (msgw.getD 9 0 >>> 4) * 10 + (msgw.getD 9 0 &&& 0x0f)
    let rain_raw := (msgw.getD 10 0 >>> 4) * 100000 + (msgw.getD 10 0 &&& 0x0f) * 10000
          + (msgw.getD 11 0 >>> 4) * 1000 + (msgw.getD 11 0 &&& 0x0f) * 100
          + (msgw.getD 12 0 >>> 4) * 10 + (msgw.getD 12 0 &&& 0x0f)
    let rain_mm : ℚ := (rain_raw : ℚ) / 10
    let temp_raw := (msgw.getD 14 0 >>> 4) * 100 + (msgw.getD 14 0 &&& 0x0f) * 10 + (msgw.getD 15 0 >>> 4)
    let temp_c : ℚ := if temp_raw > 600 then ((temp_raw : ℚ) - 1000) / 10 else (temp_raw : ℚ) / 10
    let humidity := (msgw.getD 16 0 >>> 4) * 10 + (msgw.getD 16 0 &&& 0x0f)
    let lght_raw := (msgw.getD 17 0 >>> 4) * 100000 + (msgw.getD 17 0 &&& 0x0f) * 10000
          + (msgw.getD 18 0 >>> 4) * 1000 + (msgw.getD 18 0 &&& 0x0f) * 100
          + (msgw.getD 19 0 >>> 4) * 10 + (msgw.getD 19 0 &&& 0x0f)
    let uv_raw := (msgw.getD 20 0 >>> 4) * 100 + (msgw.getD 20 0 &&& 0x0f) * 10 + (msgw.getD 21 0 >>> 4)
    let globe_ok := (stype == 13) && decide ((msgw.getD 23 0 >>> 4) < 10)
    let tglobe_c : ℚ := ((msgw.getD 22 0 >>> 4) * 10 + (msgw.getD 22 0 &&& 0x0f) : Nat)
          + ((msgw.getD 23 0 >>> 4 : Nat) : ℚ) / 10
    (DECODE_OK, some { base with
      temp_c := some temp_c
      humidity := some humidity
      rain_mm := some rain_mm
      wind_gust_meter_sec := if wind_light_ok then some ((wgst_raw : ℚ) / 10) else none
      wind_avg_meter_sec := if wind_light_ok then some ((wavg_raw : ℚ) / 10) else none
      wind_direction_deg := if wind_light_ok then some ((wdir : ℚ)) else none
      light_lux := if wind_light_ok then some ((lght_raw : ℚ)) else none
      uv_index := if wind_light_ok then some ((uv_raw : ℚ) / 10) else none
      globe_temp_c := if globe_ok then some tglobe_c else none })
  else if msg.getD 6 0 >>> 4 == 8 then
    -- Air Quality (Particulate Matter) sensor
    let pm_1_0 := (msgw.getD 8 0 &&& 0x0f) * 1000 + (msgw.getD 9 0 >>> 4) * 100
          + (msgw.getD 9 0 &&& 0x0f) * 10 + (msgw.getD 10 0 >>> 4)
    let pm_2_5 := (msgw.getD 10 0 &&& 0x0f) * 1000 + (msgw.getD 11 0 >>> 4) * 100
          + (msgw.getD 11 0 &&& 0x0f) * 10 + (msgw.getD 12 0 >>> 4)
    let pm_10 := (msgw.getD 12 0 &&& 0x0f) * 1000 + (msgw.getD 13 0 >>> 4) * 100
          + (msgw.getD 13 0 &&& 0x0f) * 10 + (msgw.getD 14 0 >>> 4)
    (DECODE_OK, some { base with pm_1_0 := some pm_1_0, pm_2_5 := some pm_2_5, pm_10 := some pm_10 })
  else if msg.getD 6 0 >>> 4 == 10 then
    -- CO2 sensor
    let co2_ppm := ((msgw.getD 4 0 &&& 0xf0) >>> 4) * 1000 + (msgw.getD 4 0 &&& 0x0f) * 100
          + ((msgw.getD 5 0 &&& 0xf0) >>> 4) * 10 + (msgw.getD 5 0 &&& 0x0f)
    (DECODE_OK, some { base with co2_ppm := some co2_ppm })
  else if msg.getD 6 0 >>> 4 == 11 then
    -- HCHO/VOC sensor
    let hcho_ppb := ((msgw.getD 4 0 &&& 0xf0) >>> 4) * 1000 + (msgw.getD 4 0 &&& 0x0f) * 100
          + ((msgw.getD 5 0 &&& 0xf0) >>> 4) * 10 + (msgw.getD 5 0 &&& 0x0f)
    let voc_level := msgw.getD 22 0 &&& 0x0f
    (DECODE_OK, some { base with hcho_ppb := some hcho_ppb, voc_level := some voc_level })
  else
    (DECODE_OK, some base)

/-- `BresserDecoder.decodeBresserLightningPayload`. -/
def decodeBresserLightningPayload (msg : List Nat) (msgSize : Nat) : Nat × Option Reading :=
  -- sensor type and startup come from RAW data (before de-whitening)
  let stype := msg.getD 6 0 >>> 4
  let startup := (msg.getD 6 0 &&& 0x8) == 0x00
  -- Data de-whitening
  -- LFSR-16 digest, generator 0x8810 key 0xabf9 with a final xor 0x899e
  if (((dewhiten msg msgSize).getD 0 0 <<< 8) ||| (dewhiten msg msgSize).getD 1 0) ^^^
      lfsr_digest16 ((dewhiten msg msgSize).drop 2) 8 0x8810 0xabf9 ≠ 0x899e then
    (DECODE_DIG_ERR, none) else
  let msgw := dewhiten msg msgSize
  let sid := (msgw.getD 2 0 <<< 8) ||| msgw.getD 3 0
  -- Counter encoded as BCD with most significant digit counting up to 15
  let strike_count := (msgw.getD 4 0 >>> 4) * 100 + (msgw.getD 4 0 &&& 0xf) * 10 + (msgw.getD 5 0 >>> 4)
  let batt_ok := !((msgw.getD 5 0 &&& 0x08) == 0x00)
  let distance_km := msgw.getD 7 0
  (DECODE_OK, some {
    sensor_id := some sid
    sensor_type := some stype
    battery_ok := some batt_ok
    startup := some startup
    strike_count := some strike_count
    distance_km := some distance_km })

/-- `BresserDecoder.decodeBresserLeakagePayload`. -/
def decodeBresserLeakagePayload (msg : List Nat) (_msgSize : Nat) : Nat × Option Reading :=
  -- Verify CRC (CRC16/XMODEM)
  if crc16 (msg.drop 2) 5 0x1021 0x0000 ≠ (msg.getD 0 0 <<< 8) ||| msg.getD 1 0 then
    (DECODE_CHK_ERR, none) else
  let sid := (msg.getD 2 0 <<< 24) ||| (msg.getD 3 0 <<< 16) ||| (msg.getD 4 0 <<< 8) ||| msg.getD 5 0
  let stype := msg.getD 6 0 >>> 4
  let ch := msg.getD 6 0 &&& 0x7
  let startup := (msg.getD 6 0 &&& 0x8) == 0x00
  let alarm := (msg.getD 7 0 &&& 0x80) == 0x80
  let no_alarm := (msg.getD 7 0 &&& 0x40) == 0x40
  let batt_ok := (msg.getD 7 0 &&& 0x30) != 0x00
  -- Sanity checks (SENSOR_TYPE_LEAKAGE = 5)
  if msg.getD 6 0 >>> 4 ≠ 5 ∨
      (((msg.getD 7 0 &&& 0x80) == 0x80) : Bool) = (((msg.getD 7 0 &&& 0x40) == 0x40) : Bool) ∨
      msg.getD 6 0 &&& 0x7 = 0 then (DECODE_INVALID, none) else
  (DECODE_OK, some {
    sensor_id := some sid
    sensor_type := some stype
    channel := some ch
    battery_ok := some batt_ok
    startup := some startup
    alarm := some (alarm && !no_alarm) })

/-!
### Validation conditions and raw field values, restated from the decoder
source for use in theorem statements.
-/

/-- 6-in-1 digest condition (source line `chkdgst != digest`): the
big-endian 16-bit value at bytes 0–1 equals the LFSR-16 digest of
15 bytes starting at byte 2, generator `0x8810`, key `0x5412`. -/
abbrev digest6Ok (msg : List Nat) : Prop :=
  (msg.getD 0 0 <<< 8) ||| msg.getD 1 0 = lfsr_digest16 (msg.drop 2) 15 0x8810 0x5412

/-- 6-in-1 checksum condition: the low byte of the additive sum of the
16 bytes starting at byte 2 equals `0xff`. -/
abbrev checksum6Ok (msg : List Nat) : Prop :=
  add_bytes (msg.drop 2) 16 &&& 0xff = 0xff

/-- 7-in-1 digest condition on the 26-byte frame: the big-endian value at
de-whitened bytes 0–1 XORed with the LFSR-16 digest of 23 de-whitened
bytes starting at byte 2 (generator `0x8810`, key `0xba95`) equals the
constant `0x6df1`. -/
abbrev digest7Ok (msg : List Nat) : Prop :=
  (((dewhiten msg 26).getD 0 0 <<< 8) ||| (dewhiten msg 26).getD 1 0) ^^^
    lfsr_digest16 ((dewhiten msg 26).drop 2) 23 0x8810 0xba95 = 0x6df1

/-- 6-in-1 wind validity: the three inverted wind-speed source bytes 7, 8
and 9 are in valid BCD range (≤ `0x99`). -/
abbrev wind6Valid (msg : List Nat) : Prop :=
  msg.getD 7 0 ^^^ 0xff ≤ 0x99 ∧ msg.getD 8 0 ^^^ 0xff ≤ 0x99 ∧ msg.getD 9 0 ^^^ 0xff ≤ 0x99

/-- 6-in-1 raw gust value: 3-digit BCD over the inverted bytes 7–8. -/
def gust6raw (msg : List Nat) : Nat :=
  ((msg.getD 7 0 ^^^ 0xff) >>> 4) * 100 + ((msg.getD 7 0 ^^^ 0xff) &&& 0x0f) * 10
    + ((msg.getD 8 0 ^^^ 0xff) >>> 4)

/-- 6-in-1 raw average wind value: 3-digit BCD over the inverted bytes 9
and 8. -/
def wavg6raw (msg : List Nat) : Nat :=
  ((msg.getD 9 0 ^^^ 0xff) >>> 4) * 100 + ((msg.getD 9 0 ^^^ 0xff) &&& 0x0f) * 10
    + ((msg.getD 8 0 ^^^ 0xff) &&& 0x0f)

/-- 6-in-1 raw wind direction: 3-digit BCD over the RAW (non-inverted)
bytes 10–11, as the source reads it. -/
def wdir6raw (msg : List Nat) : Nat :=
  ((msg.getD 10 0 &&& 0xf0) >>> 4) * 100 + (msg.getD 10 0 &&& 0x0f) * 10
    + ((msg.getD 11 0 &&& 0xf0) >>> 4)

/-- 6-in-1 raw humidity value: 2-digit BCD of byte 14. -/
def hum6raw (msg : List Nat) : Nat :=
  (msg.getD 14 0 >>> 4) * 10 + (msg.getD 14 0 &&& 0x0f)

/-!
### Concrete 26-byte frames used as witnesses and counterexamples.
-/

/-- The golden 6-in-1 test vector fixed by the specification (§8). -/
def golden6 : List Nat :=
  [0x54, 0x1B, 0x21, 0x10, 0x34, 0x27, 0x18, 0xFF, 0x88, 0xFF,
   0x29, 0x28, 0x06, 0x42, 0x87, 0xFF, 0xF0, 0xC6, 0x00, 0x00,
   0x00, 0x00, 0x00, 0x00, 0x00, 0x00]

/-- 26-byte all-zero buffer. -/
def zeros26 : List Nat := List.replicate 26 0

/-- 26-byte all-`0xFF` buffer. -/
def ffs26 : List Nat := List.replicate 26 0xff

/-- A 6-in-1 soil-moisture frame: sensor type 4 (byte 6 = `0x48`), flags 0
(byte 16 = `0xF0`), raw humidity 10 (byte 14 = `0x10`); byte 17 balances the
additive checksum and bytes 0–1 carry the matching LFSR digest. -/
def soilBuf : List Nat :=
  [0xFF, 0x2E, 0x39, 0x52, 0x00, 0x01, 0x48, 0xFF, 0xFF, 0xFF,
   0x00, 0x00, 0x12, 0x32, 0x10, 0xFF, 0xF0, 0xEB, 0x00, 0x00,
   0x00, 0x00, 0x00, 0x00, 0x00, 0x00]

/-- A 7-in-1 frame passing the digest whose raw byte 6 is `0x00`
(sensor type 0, none of the handled families): de-whitened bytes 2–25 are
zero except byte 6, and de-whitened bytes 0–1 carry the digest XOR
`0x6df1`. -/
def unknown7Buf : List Nat :=
  [212, 183, 170, 170, 170, 170, 0, 170, 170, 170, 170, 170, 170,
   170, 170, 170, 170, 170, 170, 170, 170, 170, 170, 170, 170, 170]

/-- A Lightning frame passing the digest whose de-whitened bytes 4–5 are
`0xff, 0xf0`: every BCD digit of the strike counter is 15, giving
strike_count 1665. -/
def lightningMaxBuf : List Nat :=
  [230, 214, 170, 170, 85, 90, 170, 170, 170, 170, 170, 170, 170,
   170, 170, 170, 170, 170, 170, 170, 170, 170, 170, 170, 170, 170]

/-- A Lightning frame passing the digest with all de-whitened data bytes
zero (strike_count 0). -/
def lightningZeroBuf : List Nat :=
  [35, 52, 170, 170, 170, 170, 170, 170, 170, 170, 170, 170, 170,
   170, 170, 170, 170, 170, 170, 170, 170, 170, 170, 170, 170, 170]

/-- A Leakage buffer failing the CRC16 check (byte 0 = 1, rest zero)
while its alarm flag equals its no-alarm flag (both clear). -/
def badCrcLeakBuf : List Nat := 1 :: List.replicate 25 0

/-!
### Helper lemmas.
-/

/-- `List.find?` over `List.range' s n` returns the smallest element of
the range satisfying the predicate. -/
lemma find?_range'_eq_some {p : Nat → Bool} {j : Nat} :
    ∀ {s n : Nat}, (List.range' s n).find? p = some j →
      p j = true ∧ s ≤ j ∧ j < s + n ∧ ∀ k, s ≤ k → k < j → p k = false := by
  intro s n
  induction n generalizing s with
  | zero => intro h; simp [List.range'] at h
  | succ n ih =>
    intro h
    rw [List.range'_succ] at h
    by_cases hp : p s = true
    · rw [List.find?_cons_of_pos _ hp] at h
      obtain rfl : s = j := Option.some.inj h
      exact ⟨hp, Nat.le_refl _, by omega, fun k hk1 hk2 => absurd hk1 (by omega)⟩
    · rw [List.find?_cons_of_neg _ hp] at h
      obtain ⟨h1, h2, h3, h4⟩ := ih h
      refine ⟨h1, by omega, by omega, fun k hk1 hk2 => ?_⟩
      rcases Nat.eq_or_lt_of_le hk1 with heq | hlt
      · subst heq; exact Bool.eq_false_iff.mpr hp
      · exact h4 k hlt hk2

/-- `List.find?` over `List.range n` returns the smallest index
satisfying the predicate. -/
lemma find?_range_eq_some {p : Nat → Bool} {n j : Nat}
    (h : (List.range n).find? p = some j) :
    p j = true ∧ j < n ∧ ∀ k, k < j → p k = false := by
  rw [List.range_eq_range'] at h
  obtain ⟨h1, _, h3, h4⟩ := find?_range'_eq_some h
  exact ⟨h1, by omega, fun k hk => h4 k (Nat.zero_le k) hk⟩

/-- Every entry of a de-whitened byte buffer is a byte. -/
lemma dewhiten_getD_lt (msg : List Nat) (s i : Nat) (hb : ∀ b ∈ msg, b < 256) :
    (dewhiten msg s).getD i 0 < 256 := by
  unfold dewhiten
  by_cases h : i < ((msg.take s).map (fun b => b ^^^ 0xaa)).length
  · have h2 : i < (msg.take s).length := by simpa using h
    rw [List.getD_eq_getElem _ _ h, List.getElem_map]
    have hmem : (msg.take s)[i] ∈ msg := List.mem_of_mem_take (List.getElem_mem h2)
    have h256 : (256 : Nat) = 2 ^ 8 := by norm_num
    rw [h256]
    exact Nat.xor_lt_two_pow (h256 ▸ hb _ hmem) (by norm_num)
  · rw [List.getD_eq_default _ _ (by omega)]
    norm_num

/-!
### Claim theorems.
-/

/-- **C1**: For every decoder (5-in-1, 6-in-1, 7-in-1, Lightning,
Leakage) and every input buffer, a (non-None) reading is returned if and
only if the returned status is `DECODE_OK`; every non-Ok status carries no
reading, and no partially populated reading is ever paired with an error
status. -/
theorem c1_reading_iff_ok (msg : List Nat) (msgSize : Nat) :
    ((decodeBresser5In1Payload msg msgSize).2 ≠ none ↔
      (decodeBresser5In1Payload msg msgSize).1 = DECODE_OK) ∧
    ((decodeBresser6In1Payload msg msgSize).2 ≠ none ↔
      (decodeBresser6In1Payload msg msgSize).1 = DECODE_OK) ∧
    ((decodeBresser7In1Payload msg msgSize).2 ≠ none ↔
      (decodeBresser7In1Payload msg msgSize).1 = DECODE_OK) ∧
    ((decodeBresserLightningPayload msg msgSize).2 ≠ none ↔
      (decodeBresserLightningPayload msg msgSize).1 = DECODE_OK) ∧
    ((decodeBresserLeakagePayload msg msgSize).2 ≠ none ↔
      (decodeBresserLeakagePayload msg msgSize).1 = DECODE_OK) := by
  refine ⟨?_, ?_, ?_, ?_, ?_⟩
  · unfold decodeBresser5In1Payload
    split
    · simp [DECODE_OK, DECODE_PAR_ERR]
    · split
      · simp [DECODE_OK, DECODE_CHK_ERR]
      · simp [DECODE_OK]
  · unfold decodeBresser6In1Payload
    split
    · simp [DECODE_OK, DECODE_DIG_ERR]
    · split
      · simp [DECODE_OK, DECODE_CHK_ERR]
      · simp [DECODE_OK]
  · unfold decodeBresser7In1Payload
    split
    · simp [DECODE_OK, DECODE_DIG_ERR]
    · split
      · simp [DECODE_OK]
      · split
        · simp [DECODE_OK]
        · split
          · simp [DECODE_OK]
          · split
            · simp [DECODE_OK]
            · simp [DECODE_OK]
  · unfold decodeBresserLightningPayload
    split
    · simp [DECODE_OK, DECODE_DIG_ERR]
    · simp [DECODE_OK]
  · unfold decodeBresserLeakagePayload
    split
    · simp [DECODE_OK, DECODE_CHK_ERR]
    · split
      · simp [DECODE_OK, DECODE_INVALID]
      · simp [DECODE_OK]

/-- **C2**: On a 26-byte frame the 6-in-1 decoder returns `DECODE_DIG_ERR`
iff the LFSR-16 digest check fails; returns `DECODE_CHK_ERR` iff the
digest check passes and the additive checksum fails (so the digest check
runs first); returns `DECODE_OK` iff both checks pass. Stated for every
buffer, hence in particular every 26-byte one. -/
theorem c2_6in1_digest_then_checksum (msg : List Nat) :
    ((decodeBresser6In1Payload msg 26).1 = DECODE_DIG_ERR ↔ ¬ digest6Ok msg) ∧
    ((decodeBresser6In1Payload msg 26).1 = DECODE_CHK_ERR ↔
      digest6Ok msg ∧ ¬ checksum6Ok msg) ∧
    ((decodeBresser6In1Payload msg 26).1 = DECODE_OK ↔
      digest6Ok msg ∧ checksum6Ok msg) := by
  unfold decodeBresser6In1Payload
  split
  · simp_all [digest6Ok, checksum6Ok, DECODE_DIG_ERR, DECODE_CHK_ERR, DECODE_OK]
  · split
    · simp_all [digest6Ok, checksum6Ok, DECODE_DIG_ERR, DECODE_CHK_ERR, DECODE_OK]
    · simp_all [digest6Ok, checksum6Ok, DECODE_DIG_ERR, DECODE_CHK_ERR, DECODE_OK]

/-- **C3**: On a 26-byte frame the 7-in-1 decoder returns
`DECODE_DIG_ERR` iff the de-whitened digest condition fails, and in every
other case returns `DECODE_OK` with a reading. The statement quantifies
over all buffers and has no condition on byte 21: a zero raw byte 21 only
produces a log warning and never changes the returned status or
reading. -/
theorem c3_7in1_digest_only_gate (msg : List Nat) :
    ((decodeBresser7In1Payload msg 26).1 = DECODE_DIG_ERR ↔ ¬ digest7Ok msg) ∧
    ((decodeBresser7In1Payload msg 26).1 = DECODE_OK ↔ digest7Ok msg) ∧
    ((decodeBresser7In1Payload msg 26).2 ≠ none ↔ digest7Ok msg) := by
  unfold decodeBresser7In1Payload
  split
  · simp_all [digest7Ok, DECODE_DIG_ERR, DECODE_OK]
  · split
    · simp_all [digest7Ok, DECODE_DIG_ERR, DECODE_OK]
    · split
      · simp_all [digest7Ok, DECODE_DIG_ERR, DECODE_OK]
      · split
        · simp_all [digest7Ok, DECODE_DIG_ERR, DECODE_OK]
        · split
          · simp_all [digest7Ok, DECODE_DIG_ERR, DECODE_OK]
          · simp_all [digest7Ok, DECODE_DIG_ERR, DECODE_OK]

/-- **C9**: the 26-byte all-zero buffer and the 26-byte all-`0xFF` buffer
are rejected (status ≠ `DECODE_OK`, hence by C1 no reading) by each of the
five decoders. -/
theorem c9_degenerate_buffers_rejected :
    (decodeBresser5In1Payload zeros26 26).1 ≠ DECODE_OK ∧
    (decodeBresser6In1Payload zeros26 26).1 ≠ DECODE_OK ∧
    (decodeBresser7In1Payload zeros26 26).1 ≠ DECODE_OK ∧
    (decodeBresserLightningPayload zeros26 26).1 ≠ DECODE_OK ∧
    (decodeBresserLeakagePayload zeros26 26).1 ≠ DECODE_OK ∧
    (decodeBresser5In1Payload ffs26 26).1 ≠ DECODE_OK ∧
    (decodeBresser6In1Payload ffs26 26).1 ≠ DECODE_OK ∧
    (decodeBresser7In1Payload ffs26 26).1 ≠ DECODE_OK ∧
    (decodeBresserLightningPayload ffs26 26).1 ≠ DECODE_OK ∧
    (decodeBresserLeakagePayload ffs26 26).1 ≠ DECODE_OK := by
  decide

/-- **C4**: For every 26-byte buffer with a parity mismatch
(`byte[i] XOR byte[i+13] != 0xff` for some `i < 13`), the 5-in-1 decoder
returns `DECODE_PAR_ERR` with no reading; the parity scan (`find?` over
`range (26 / 2)`, mirroring the source loop) reports the smallest
mismatching column. -/
theorem c4_5in1_parity_error (msg : List Nat) (i : Nat) (hi : i < 13)
    (hmis : msg.getD i 0 ^^^ msg.getD (i + 13) 0 ≠ 0xff) :
    decodeBresser5In1Payload msg 26 = (DECODE_PAR_ERR, none) ∧
    ∃ j, parityFailColumn msg 26 = some j ∧ j < 13 ∧
      msg.getD j 0 ^^^ msg.getD (j + 13) 0 ≠ 0xff ∧
      ∀ k, k < j → msg.getD k 0 ^^^ msg.getD (k + 13) 0 = 0xff := by
  have h13 : (26 : Nat) / 2 = 13 := by norm_num
  have hne : parityFailColumn msg 26 ≠ none := by
    intro hnone
    unfold parityFailColumn at hnone
    rw [h13] at hnone
    have h0 := List.find?_eq_none.mp hnone i (List.mem_range.mpr hi)
    simp only [bne_iff_ne, ne_eq, not_not] at h0
    exact hmis h0
  obtain ⟨j, hj⟩ := Option.ne_none_iff_exists'.mp hne
  have hj2 := hj
  unfold parityFailColumn at hj2
  rw [h13] at hj2
  obtain ⟨hpj, hjlt, hmin⟩ := find?_range_eq_some hj2
  simp only [bne_iff_ne, ne_eq] at hpj
  refine ⟨?_, j, hj, hjlt, hpj, fun k hk => ?_⟩
  · unfold decodeBresser5In1Payload
    rw [hj]
  · have h0 := hmin k hk
    simp only [bne_eq_false_iff_eq] at h0
    exact h0

/-- **C4 witness**: the all-zero buffer has a parity mismatch at column 0
and is rejected with `DECODE_PAR_ERR`. -/
theorem c4_5in1_parity_error_witness :
    (0 : Nat) < 13 ∧ zeros26.getD 0 0 ^^^ zeros26.getD 13 0 ≠ 0xff ∧
    (decodeBresser5In1Payload zeros26 26 = (DECODE_PAR_ERR, none) ∧
     ∃ j, parityFailColumn zeros26 26 = some j ∧ j < 13 ∧
       zeros26.getD j 0 ^^^ zeros26.getD (j + 13) 0 ≠ 0xff ∧
       ∀ k, k < j → zeros26.getD k 0 ^^^ zeros26.getD (k + 13) 0 = 0xff) :=
  ⟨by decide, by decide, c4_5in1_parity_error zeros26 0 (by decide) (by decide)⟩

/-- **C5 counterexample**: `badCrcLeakBuf` has its alarm flag equal to its
no-alarm flag (both clear), yet the Leakage decoder returns
`DECODE_CHK_ERR` — not `DECODE_INVALID` — because the CRC16 check runs
before the sanity gate.  This refutes the claim as stated. -/
theorem c5_counterexample :
    ((((badCrcLeakBuf.getD 7 0 &&& 0x80) == 0x80) : Bool) =
      (((badCrcLeakBuf.getD 7 0 &&& 0x40) == 0x40) : Bool)) ∧
    (decodeBresserLeakagePayload badCrcLeakBuf 26).1 = DECODE_CHK_ERR ∧
    (decodeBresserLeakagePayload badCrcLeakBuf 26).1 ≠ DECODE_INVALID := by
  decide

/-- **C5 amended**: for every buffer that passes the CRC16/XMODEM check,
if the decoded alarm flag equals the no-alarm flag, or the channel is 0,
or the sensor type is not the leakage code 5, the Leakage decoder returns
`DECODE_INVALID` with no reading. -/
theorem c5_amended_leakage_gate (msg : List Nat)
    (hcrc : crc16 (msg.drop 2) 5 0x1021 0x0000 = (msg.getD 0 0 <<< 8) ||| msg.getD 1 0)
    (hgate : msg.getD 6 0 >>> 4 ≠ 5 ∨
      ((((msg.getD 7 0 &&& 0x80) == 0x80) : Bool) = (((msg.getD 7 0 &&& 0x40) == 0x40) : Bool)) ∨
      msg.getD 6 0 &&& 0x7 = 0) :
    decodeBresserLeakagePayload msg 26 = (DECODE_INVALID, none) := by
  unfold decodeBresserLeakagePayload
  split
  · rename_i h
    exact absurd hcrc h
  · rfl

/-- **C5 amended witness**: the all-zero buffer passes the CRC check
(CRC of five zero bytes with init 0 is 0) and has sensor type 0 ≠ 5, so
the decoder returns `DECODE_INVALID`. -/
theorem c5_amended_leakage_gate_witness :
    crc16 (zeros26.drop 2) 5 0x1021 0x0000 = (zeros26.getD 0 0 <<< 8) ||| zeros26.getD 1 0 ∧
    zeros26.getD 6 0 >>> 4 ≠ 5 ∧
    decodeBresserLeakagePayload zeros26 26 = (DECODE_INVALID, none) :=
  ⟨by decide, by decide, c5_amended_leakage_gate zeros26 (by decide) (Or.inl (by decide))⟩

/-- **C6 counterexample**: the golden 6-in-1 vector passes digest and
checksum and its wind fields are present, but the decoded wind direction
is 292° — the 3-digit BCD of the RAW bytes 10–11 — not 1373, the 3-digit
BCD of the inverted bytes 10–11 that the claim prescribes.  This refutes
the claim as stated. -/
theorem c6_counterexample :
    digest6Ok golden6 ∧ checksum6Ok golden6 ∧
    (decodeBresser6In1Payload golden6 26).2.bind (fun r => r.wind_direction_deg) = some 292 ∧
    ((((golden6.getD 10 0 ^^^ 0xff) >>> 4) * 100 + ((golden6.getD 10 0 ^^^ 0xff) &&& 0x0f) * 10
        + ((golden6.getD 11 0 ^^^ 0xff) >>> 4) : Nat) : ℚ) = 1373 ∧
    (292 : ℚ) ≠ 1373 := by
  refine ⟨by decide, by decide, by decide, by decide, by norm_num⟩

/-- **C6 amended**: for every 26-byte buffer accepted by the 6-in-1 digest
and checksum checks whose sensor type (byte 6 high nibble) is not the
soil code 4, the three wind fields are present iff all three inverted
bytes 7, 8, 9 are ≤ `0x99`; gust and average are then the 3-digit BCD
values over the inverted bytes times 0.1, while the wind direction is the
3-digit BCD value over the RAW (non-inverted) bytes 10–11, in degrees. -/
theorem c6_amended_wind_decode (msg : List Nat)
    (hdig : digest6Ok msg) (hchk : checksum6Ok msg)
    (hstype : msg.getD 6 0 >>> 4 ≠ 4) :
    (((decodeBresser6In1Payload msg 26).2.bind (fun r => r.wind_gust_meter_sec)).isSome
      ↔ wind6Valid msg) ∧
    (((decodeBresser6In1Payload msg 26).2.bind (fun r => r.wind_avg_meter_sec)).isSome
      ↔ wind6Valid msg) ∧
    (((decodeBresser6In1Payload msg 26).2.bind (fun r => r.wind_direction_deg)).isSome
      ↔ wind6Valid msg) ∧
    (wind6Valid msg →
      (decodeBresser6In1Payload msg 26).2.bind (fun r => r.wind_gust_meter_sec)
        = some ((gust6raw msg : ℚ) / 10) ∧
      (decodeBresser6In1Payload msg 26).2.bind (fun r => r.wind_avg_meter_sec)
        = some ((wavg6raw msg : ℚ) / 10) ∧
      (decodeBresser6In1Payload msg 26).2.bind (fun r => r.wind_direction_deg)
        = some ((wdir6raw msg : ℚ))) := by
  have hd : (msg.getD 0 0 <<< 8) ||| msg.getD 1 0
      = lfsr_digest16 (msg.drop 2) 15 0x8810 0x5412 := hdig
  have hc : add_bytes (msg.drop 2) 16 &&& 0xff = 0xff := hchk
  have hs4 : ¬ msg.getD 6 0 >>> 4 = 4 := hstype
  simp only [List.getD_eq_getElem?_getD] at hd hc hs4
  by_cases hw : wind6Valid msg
  · obtain ⟨h7, h8, h9⟩ := hw
    simp only [List.getD_eq_getElem?_getD] at h7 h8 h9
    simp [decodeBresser6In1Payload, hd, hc, hs4, h7, h8, h9,
      wind6Valid, gust6raw, wavg6raw, wdir6raw]
  · have hw7 : ¬ (msg.getD 7 0 ^^^ 0xff ≤ 0x99 ∧ msg.getD 8 0 ^^^ 0xff ≤ 0x99
        ∧ msg.getD 9 0 ^^^ 0xff ≤ 0x99) := hw
    simp only [List.getD_eq_getElem?_getD, not_and_or] at hw7
    have hwv : ¬ wind6Valid msg := hw
    rcases hw7 with h | h | h <;>
      simp [decodeBresser6In1Payload, hd, hc, hs4, h, hwv, wind6Valid]

/-- **C6 amended witness**: the golden 6-in-1 vector (sensor type 1) has
valid wind BCD and decodes to gust 0.7 m/s, average 0.7 m/s,
direction 292°. -/
theorem c6_amended_wind_decode_witness :
    digest6Ok golden6 ∧ checksum6Ok golden6 ∧ golden6.getD 6 0 >>> 4 ≠ 4 ∧
    ((((decodeBresser6In1Payload golden6 26).2.bind (fun r => r.wind_gust_meter_sec)).isSome
        ↔ wind6Valid golden6) ∧
     (((decodeBresser6In1Payload golden6 26).2.bind (fun r => r.wind_avg_meter_sec)).isSome
        ↔ wind6Valid golden6) ∧
     (((decodeBresser6In1Payload golden6 26).2.bind (fun r => r.wind_direction_deg)).isSome
        ↔ wind6Valid golden6) ∧
     (wind6Valid golden6 →
       (decodeBresser6In1Payload golden6 26).2.bind (fun r => r.wind_gust_meter_sec)
         = some ((gust6raw golden6 : ℚ) / 10) ∧
       (decodeBresser6In1Payload golden6 26).2.bind (fun r => r.wind_avg_meter_sec)
         = some ((wavg6raw golden6 : ℚ) / 10) ∧
       (decodeBresser6In1Payload golden6 26).2.bind (fun r => r.wind_direction_deg)
         = some ((wdir6raw golden6 : ℚ)))) :=
  ⟨by decide, by decide, by decide,
    c6_amended_wind_decode golden6 (by decide) (by decide) (by decide)⟩

/-- **C7**: for every valid 6-in-1 frame (digest and checksum pass) with
sensor type 4 (soil), flags 0, and raw humidity `h` in `[1, 16]`, the
reading is returned with status Ok, its moisture field is entry `h - 1`
of `MOISTURE_MAP`, and it has no humidity field. -/
theorem c7_soil_moisture_remap (msg : List Nat)
    (hdig : digest6Ok msg) (hchk : checksum6Ok msg)
    (hstype : msg.getD 6 0 >>> 4 = 4)
    (hflags : msg.getD 16 0 &&& 0x0f = 0)
    (hge : 1 ≤ hum6raw msg) (hle : hum6raw msg ≤ 16) :
    (decodeBresser6In1Payload msg 26).1 = DECODE_OK ∧
    (decodeBresser6In1Payload msg 26).2.bind (fun r => r.moisture)
      = some (MOISTURE_MAP.getD (hum6raw msg - 1) 0) ∧
    (decodeBresser6In1Payload msg 26).2.bind (fun r => r.humidity) = none := by
  have hd : (msg.getD 0 0 <<< 8) ||| msg.getD 1 0
      = lfsr_digest16 (msg.drop 2) 15 0x8810 0x5412 := hdig
  have hc : add_bytes (msg.drop 2) 16 &&& 0xff = 0xff := hchk
  have hs : msg.getD 6 0 >>> 4 = 4 := hstype
  have hf : msg.getD 16 0 &&& 0x0f = 0 := hflags
  simp only [hum6raw] at hge hle
  simp only [List.getD_eq_getElem?_getD] at hd hc hs hf hge hle
  simp [decodeBresser6In1Payload, hd, hc, hs, hf, hge, hle, DECODE_OK, hum6raw]

/-- **C7 witness**: `soilBuf` is a valid soil frame with raw humidity 10;
the reading carries moisture `MOISTURE_MAP[9] = 60` and no humidity. -/
theorem c7_soil_moisture_remap_witness :
    digest6Ok soilBuf ∧ checksum6Ok soilBuf ∧ soilBuf.getD 6 0 >>> 4 = 4 ∧
    soilBuf.getD 16 0 &&& 0x0f = 0 ∧ 1 ≤ hum6raw soilBuf ∧ hum6raw soilBuf ≤ 16 ∧
    ((decodeBresser6In1Payload soilBuf 26).1 = DECODE_OK ∧
     (decodeBresser6In1Payload soilBuf 26).2.bind (fun r => r.moisture)
       = some (MOISTURE_MAP.getD (hum6raw soilBuf - 1) 0) ∧
     (decodeBresser6In1Payload soilBuf 26).2.bind (fun r => r.humidity) = none) :=
  ⟨by decide, by decide, by decide, by decide, by decide, by decide,
    c7_soil_moisture_remap soilBuf (by decide) (by decide) (by decide) (by decide)
      (by decide) (by decide)⟩

/-- **C8 counterexample**: `lightningMaxBuf` passes the Lightning digest
(so decode returns Ok) and its de-whitened bytes 4–5 are `0xff, 0xf0`, so
every digit of the strike counter is 15 and the returned strike_count is
1665 > 1599.  This refutes the claimed bound. -/
theorem c8_counterexample :
    (decodeBresserLightningPayload lightningMaxBuf 26).1 = DECODE_OK ∧
    (decodeBresserLightningPayload lightningMaxBuf 26).2.bind (fun r => r.strike_count)
      = some 1665 ∧
    ¬ (1665 : Nat) ≤ 1599 := by decide

/-- **C8 amended**: for every byte buffer on which the Lightning decoder
returns a strike count, that count is at most 1665 (every nibble can run
to 15); the claimed bound 1599 holds under the additional assumption that
the tens digit (low nibble of de-whitened byte 4) and the units digit
(high nibble of de-whitened byte 5) are valid BCD digits ≤ 9. -/
theorem c8_amended_strike_count_bound (msg : List Nat)
    (hbytes : ∀ b ∈ msg, b < 256) (n : Nat)
    (hstrike : (decodeBresserLightningPayload msg 26).2.bind (fun r => r.strike_count)
      = some n) :
    n ≤ 1665 ∧
    ((dewhiten msg 26).getD 4 0 &&& 0xf ≤ 9 → (dewhiten msg 26).getD 5 0 >>> 4 ≤ 9 →
      n ≤ 1599) := by
  have h4 := dewhiten_getD_lt msg 26 4 hbytes
  have h5 := dewhiten_getD_lt msg 26 5 hbytes
  unfold decodeBresserLightningPayload at hstrike
  split at hstrike
  · simp at hstrike
  · simp only [Option.bind_some] at hstrike
    have hn : (dewhiten msg 26).getD 4 0 >>> 4 * 100 + ((dewhiten msg 26).getD 4 0 &&& 0xf) * 10
        + (dewhiten msg 26).getD 5 0 >>> 4 = n := by
      simpa using hstrike
    have e4 : (dewhiten msg 26).getD 4 0 >>> 4 = (dewhiten msg 26).getD 4 0 / 16 := by
      rw [Nat.shiftRight_eq_div_pow]
    have e5 : (dewhiten msg 26).getD 5 0 >>> 4 = (dewhiten msg 26).getD 5 0 / 16 := by
      rw [Nat.shiftRight_eq_div_pow]
    have a4 : (dewhiten msg 26).getD 4 0 &&& 0xf ≤ 0xf := Nat.and_le_right
    constructor
    · omega
    · intro hd1 hd2
      omega

/-- **C8 amended witness**: `lightningZeroBuf` decodes Ok with
strike_count 0, within both bounds. -/
theorem c8_amended_strike_count_bound_witness :
    (∀ b ∈ lightningZeroBuf, b < 256) ∧
    (decodeBresserLightningPayload lightningZeroBuf 26).2.bind (fun r => r.strike_count)
      = some 0 ∧
    ((0 : Nat) ≤ 1665 ∧
     ((dewhiten lightningZeroBuf 26).getD 4 0 &&& 0xf ≤ 9 →
       (dewhiten lightningZeroBuf 26).getD 5 0 >>> 4 ≤ 9 → (0 : Nat) ≤ 1599)) :=
  ⟨by decide, by decide,
    c8_amended_strike_count_bound lightningZeroBuf (by decide) 0 (by decide)⟩

/-- **C10**: for every 26-byte buffer passing the 7-in-1 digest whose raw
byte 6 high nibble is none of 1, 8, 10, 11, 12, 13, the 7-in-1 decoder
still returns Ok and the reading contains exactly the five common fields
sensor_id, sensor_type, channel, battery_ok and startup (every other
field of the result is absent — the record literal leaves them `none`). -/
theorem c10_7in1_unknown_type_common_fields (msg : List Nat)
    (hdig : digest7Ok msg)
    (ht1 : msg.getD 6 0 >>> 4 ≠ 1) (ht8 : msg.getD 6 0 >>> 4 ≠ 8)
    (ht10 : msg.getD 6 0 >>> 4 ≠ 10) (ht11 : msg.getD 6 0 >>> 4 ≠ 11)
    (ht12 : msg.getD 6 0 >>> 4 ≠ 12) (ht13 : msg.getD 6 0 >>> 4 ≠ 13) :
    decodeBresser7In1Payload msg 26 = (DECODE_OK, some {
      sensor_id := some (((dewhiten msg 26).getD 2 0 <<< 8) ||| (dewhiten msg 26).getD 3 0)
      sensor_type := some (msg.getD 6 0 >>> 4)
      channel := some (msg.getD 6 0 &&& 0x07)
      battery_ok := some (!((((dewhiten msg 26).getD 15 0 &&& 0x0f) &&& 0x06) == 0x06))
      startup := some ((msg.getD 6 0 &&& 0x08) == 0x00) }) := by
  have hd : (((dewhiten msg 26).getD 0 0 <<< 8) ||| (dewhiten msg 26).getD 1 0) ^^^
      lfsr_digest16 ((dewhiten msg 26).drop 2) 23 0x8810 0xba95 = 0x6df1 := hdig
  have h1 : ¬ msg.getD 6 0 >>> 4 = 1 := ht1
  have h8 : ¬ msg.getD 6 0 >>> 4 = 8 := ht8
  have h10 : ¬ msg.getD 6 0 >>> 4 = 10 := ht10
  have h11 : ¬ msg.getD 6 0 >>> 4 = 11 := ht11
  have h12 : ¬ msg.getD 6 0 >>> 4 = 12 := ht12
  have h13 : ¬ msg.getD 6 0 >>> 4 = 13 := ht13
  simp only [List.getD_eq_getElem?_getD] at hd h1 h8 h10 h11 h12 h13
  simp [decodeBresser7In1Payload, hd, h1, h8, h10, h11, h12, h13, DECODE_OK]

/-- **C10 witness**: `unknown7Buf` (raw byte 6 = 0, sensor type 0) passes
the digest and decodes to exactly the five common fields. -/
theorem c10_7in1_unknown_type_common_fields_witness :
    digest7Ok unknown7Buf ∧ unknown7Buf.getD 6 0 >>> 4 ≠ 1 ∧
    unknown7Buf.getD 6 0 >>> 4 ≠ 8 ∧ unknown7Buf.getD 6 0 >>> 4 ≠ 10 ∧
    unknown7Buf.getD 6 0 >>> 4 ≠ 11 ∧ unknown7Buf.getD 6 0 >>> 4 ≠ 12 ∧
    unknown7Buf.getD 6 0 >>> 4 ≠ 13 ∧
    decodeBresser7In1Payload unknown7Buf 26 = (DECODE_OK, some {
      sensor_id := some (((dewhiten unknown7Buf 26).getD 2 0 <<< 8) |||
        (dewhiten unknown7Buf 26).getD 3 0)
      sensor_type := some (unknown7Buf.getD 6 0 >>> 4)
      channel := some (unknown7Buf.getD 6 0 &&& 0x07)
      battery_ok := some (!((((dewhiten unknown7Buf 26).getD 15 0 &&& 0x0f) &&& 0x06) == 0x06))
      startup := some ((unknown7Buf.getD 6 0 &&& 0x08) == 0x00) }) :=
  ⟨by decide, by decide, by decide, by decide, by decide, by decide, by decide,
    c10_7in1_unknown_type_common_fields unknown7Buf (by decide) (by decide) (by decide)
      (by decide) (by decide) (by decide) (by decide)⟩
